import Mathlib

/-!
# Verification of `packages/shared/scope-hoisting/src/generate.js`

A shallow embedding of the scope-hoisting `generate` function: the bundle
framing step (wrapping/registration templates), the interpreter-directive
invariant, and the source-map assembly loop, together with proofs of the
spec's testable properties.

Conventions:
* JavaScript exceptions (the `invariant` call, a rejected promise from
  `asset.getMap()` or `map.toVLQ()`) are modelled with `Except String`.
* The external pretty-printer (`@babel/generator`) is a parameter of
  `generate`: it receives the framed file and the `sourceMaps`/`minified`
  flags and yields generated text plus optional raw mappings.
* The `PromiseQueue` collaborator (from `@parcel/utils`, outside the
  embedded source) is modelled from the spec as a bounded-concurrency work
  queue: units are dispatched in waves of at most `maxConcurrent` in-flight
  tasks and the run completes only after every wave has drained.
-/

namespace ScopeHoisting

/-- A JavaScript value, as far as `mainEntry.meta.interpreter` is concerned.
`null` and `undefined` both satisfy `x == null`; only `str` satisfies
`typeof x === 'string'`. -/
inductive JSValue where
  | null
  | undefined
  | str (s : String)
  | num (n : Int)
  | boolean (b : Bool)
deriving DecidableEq, Repr

/-- The condition of the `invariant(_interpreter == null || typeof _interpreter === 'string')`
call in `generate`. -/
def interpreterInvariant : JSValue → Bool
  | .null => true
  | .undefined => true
  | .str _ => true
  | _ => false

/-- Statements of the output tree.  Input statements are opaque (`raw`);
the two wrapper templates of `generate.js` are the only statement forms the
framing step can introduce. -/
inductive Stmt where
  /-- an arbitrary statement of the input tree (`ast.program.body`) -/
  | raw (code : String)
  /-- `REGISTER_TEMPLATE`: self-invoking wrapper that defines
  `$parcel$bundleWrapper` (guarded by its `_executed` flag) and calls
  `PARCEL_REQUIRE.registerBundle(id, wrapper)` for each id of
  `REFERENCED_IDS`, in order. -/
  | registerWrapper (referencedIds : List String) (parcelRequire : String) (body : List Stmt)
  /-- `WRAPPER_TEMPLATE`: `(function () { STATEMENTS; })()` -/
  | plainWrapper (body : List Stmt)
deriving Repr

/-- `program.sourceType` of the produced file: `'module'` or `'script'`. -/
inductive SourceType where
  | module
  | script
deriving DecidableEq, Repr

/-- The babel `Program` node, restricted to the fields `generate` builds:
`t.program(statements, [], sourceType, interpreter)`. -/
structure Program where
  body : List Stmt
  sourceType : SourceType
  interpreter : Option String
deriving Repr

/-- The babel `File` node: `t.file(program)` / the `ast` argument. -/
structure File where
  program : Program
deriving Repr

/-- `bundle.env.outputFormat`. -/
inductive OutputFormat where
  | global
  | esmodule
  | commonjs
deriving DecidableEq, Repr

/-- The fields of `bundle.env` that `generate` reads. `sourceMap` is the
truthiness of `bundle.env.sourceMap` (the flag `!!bundle.env.sourceMap`). -/
structure Env where
  outputFormat : OutputFormat
  sourceMap : Bool
  minify : Bool
deriving DecidableEq, Repr

/-- A decoded (VLQ) source map: `map.toVLQ()` result.  `sources` and
`sourcesContent` are the aligned lists; a `none` entry of `sourcesContent`
is a JSON `null` (the library writes `null` for an empty string). -/
structure VLQMap where
  sources : List String
  sourcesContent : Option (List (Option String))
deriving DecidableEq, Repr

instance {ε α : Type} [DecidableEq ε] [DecidableEq α] : DecidableEq (Except ε α) := fun a b =>
  match a, b with
  | .error x, .error y =>
      if h : x = y then isTrue (by rw [h]) else isFalse (by intro hh; cases hh; exact h rfl)
  | .ok x, .ok y =>
      if h : x = y then isTrue (by rw [h]) else isFalse (by intro hh; cases hh; exact h rfl)
  | .error _, .ok _ => isFalse (fun h => Except.noConfusion h)
  | .ok _, .error _ => isFalse (fun h => Except.noConfusion h)

/-- An asset's own source map object.  Decoding (`toVLQ`) may throw, which
is modelled as `Except`. -/
structure AssetMap where
  toVLQ : Except String VLQMap
deriving DecidableEq, Repr

/-- An `Asset`, restricted to what `generate` reads: `meta.interpreter`,
and `getMap()` — an async call that may reject (`Except.error`) or resolve
to no map (`Except.ok none`). -/
structure Asset where
  publicId : String
  metaInterpreter : JSValue
  getMap : Except String (Option AssetMap)
deriving DecidableEq, Repr

/-- The `BundleGraph` collaborator: `generate` only calls
`bundleGraph.getAssetPublicId`. -/
structure BundleGraph where
  getAssetPublicId : Asset → String

/-- A `NamedBundle`, restricted to what `generate` reads.

`isEntryBundle` is modelled from the spec: the predicate `isEntry(bundle,
bundleGraph)` lives in `./utils`, which is not part of the embedded source;
the spec's data model carries the execution role (entry / non-entry-async)
as bundle metadata, so it is a field here.  `assets` is the sequence of
assets visited by `bundle.traverseAssets`, and `targetIsBrowser` is
`bundle.target.env.isBrowser()`. -/
structure NamedBundle where
  env : Env
  targetIsBrowser : Bool
  mainEntry : Option Asset
  assets : List Asset
  isEntryBundle : Bool

/-- One raw mapping produced by the external printer (consumed opaquely:
`generate` only bulk-inserts them). -/
structure RawMapping where
  generatedLine : Nat
  generatedColumn : Nat
  original : Option (Nat × Nat × String)
deriving DecidableEq, Repr

/-- The result of the external printer `babelGenerate(ast, opts)`:
generated text plus (optionally) raw mappings. -/
structure PrintResult where
  code : String
  rawMappings : Option (List RawMapping)
deriving DecidableEq, Repr

/-- The external printer itself, a parameter of `generate`: it receives the
framed file, the `sourceMaps` flag and the `minified` flag. -/
def Printer := File → Bool → Bool → PrintResult

/-- The output `SourceMap` container (from `@parcel/source-map`, outside
the embedded source).  Modelled from the spec as supporting indexed-mapping
insertion and per-source content attachment: `mappings` holds the
bulk-inserted raw mappings, `sourcesContent` the attached
(sourcePath, content) pairs. -/
structure SourceMap where
  projectRoot : String
  mappings : List RawMapping
  sourcesContent : List (String × String)
deriving DecidableEq, Repr

/-- `options` (only `options.projectRoot` is read). -/
structure PluginOptions where
  projectRoot : String
deriving DecidableEq, Repr

/-- The value `generate` resolves to: `{contents: code, map}`. -/
structure GenResult where
  contents : String
  map : Option SourceMap
deriving DecidableEq, Repr

/-- Lines 62–68 of `generate.js`:

```js
let interpreter;
let mainEntry = bundle.getMainEntry();
if (mainEntry && !bundle.target.env.isBrowser()) {
  let _interpreter = mainEntry.meta.interpreter;
  invariant(_interpreter == null || typeof _interpreter === 'string');
  interpreter = _interpreter;
}
```

The `invariant` throw is an `Except.error`; when the guard does not fire,
`interpreter` stays `undefined`, i.e. `none`. -/
def getInterpreter (bundle : NamedBundle) : Except String (Option String) :=
  match bundle.mainEntry with
  | some mainEntry =>
      if !bundle.targetIsBrowser then
        if interpreterInvariant mainEntry.metaInterpreter then
          .ok (match mainEntry.metaInterpreter with
            | .str s => some s
            | _ => none)
        else
          .error "AssertionError: invariant(_interpreter == null || typeof _interpreter === \"string\")"
      else .ok none
  | none => .ok none

/-- Lines 71–92 of `generate.js`: the framing step.

```js
let isAsync = !isEntry(bundle, bundleGraph);
let statements = ast.program.body;
if (bundle.env.outputFormat === 'global') {
  statements = isAsync
    ? [REGISTER_TEMPLATE({STATEMENTS, REFERENCED_IDS, PARCEL_REQUIRE})]
    : [WRAPPER_TEMPLATE({STATEMENTS})];
}
```

`REFERENCED_IDS` is `[mainEntry, ...referencedAssets].filter(Boolean)`
mapped through `bundleGraph.getAssetPublicId`: a missing `mainEntry` is
dropped by `filter(Boolean)` (hence `Option.toList`), the spread of the
`Set` keeps its insertion order, and no deduplication happens between
`mainEntry` and the set. -/
def frameStatements (bundleGraph : BundleGraph) (bundle : NamedBundle)
    (referencedAssets : List Asset) (parcelRequireName : String)
    (statements : List Stmt) : List Stmt :=
  if bundle.env.outputFormat = .global then
    if !bundle.isEntryBundle then
      [Stmt.registerWrapper
        ((bundle.mainEntry.toList ++ referencedAssets).map bundleGraph.getAssetPublicId)
        parcelRequireName statements]
    else
      [Stmt.plainWrapper statements]
  else statements

/-- JavaScript truthiness of `interpreter` in
`interpreter ? t.interpreterDirective(interpreter) : null`: `undefined`,
`null` and the empty string are all falsy. -/
def truthyStr : Option String → Option String
  | some s => if s = "" then none else some s
  | none => none

/-- Lines 94–101 of `generate.js`:

```js
ast = t.file(t.program(statements, [],
  bundle.env.outputFormat === 'esmodule' ? 'module' : 'script',
  interpreter ? t.interpreterDirective(interpreter) : null));
``` -/
def buildFile (outputFormat : OutputFormat) (statements : List Stmt)
    (interpreter : Option String) : File :=
  { program :=
      { body := statements
        sourceType := if outputFormat = .esmodule then .module else .script
        interpreter := truthyStr interpreter } }

/-- The `setSourceContent` calls the inner loop of one queue unit performs
on a decoded map (lines 123–134): for each index whose `sourcesContent`
entry is truthy (present and non-empty), the pair
`(sources[i], sourcesContent[i])`. -/
def setContentCalls (vlq : VLQMap) : List (String × String) :=
  match vlq.sourcesContent with
  | none => []
  | some contents =>
      (List.range contents.length).filterMap fun i =>
        match contents.getD i none with
        | some c => if c = "" then none else some (vlq.sources.getD i "", c)
        | none => none

/-- One unit of the promise queue (lines 118–136): fetch the asset's map;
no map is a silent skip; a present map is decoded with `toVLQ` (which may
throw) and its truthy source contents are attached with
`map.setSourceContent(...)`.

The `map` those calls are made on is the inner `let map = await
asset.getMap()`, which shadows the outer output map of `generate` — so
they mutate the asset's own map object.  The unit therefore returns the
performed calls, and `generate` discards them. -/
def assetUnit (asset : Asset) : Except String (List (String × String)) :=
  match asset.getMap with
  | .error e => .error e
  | .ok none => .ok []
  | .ok (some assetMap) =>
      match assetMap.toVLQ with
      | .error e => .error e
      | .ok vlq => .ok (setContentCalls vlq)

/-- Modelled from the spec: `PromiseQueue` (from `@parcel/utils`, not part
of the embedded source) is a bounded-concurrency work queue — at most
`cap` units are in flight at once and `run()` resolves only after all
scheduled units complete.  The schedule is modelled as waves: each wave is
the set of simultaneously in-flight units (at most `cap` of them), and the
queue drains wave after wave.  `fuel` bounds the recursion; it is
initialised to the task count, which suffices whenever `cap ≥ 1`. -/
def queueWavesAux {α : Type} (cap : Nat) : Nat → List α → List (List α)
  | _, [] => []
  | 0, _ :: _ => []
  | fuel + 1, t :: ts => (t :: ts).take cap :: queueWavesAux cap fuel ((t :: ts).drop cap)

/-- The wave schedule of a `PromiseQueue` with `maxConcurrent := cap` over
`tasks` (see `queueWavesAux`). -/
def queueWaves {α : Type} (cap : Nat) (tasks : List α) : List (List α) :=
  queueWavesAux cap tasks.length tasks

/-- Run the units of one wave; a rejected unit rejects the whole run. -/
def seqUnits : List Asset → Except String Unit
  | [] => .ok ()
  | a :: rest =>
      match assetUnit a with
      | .error e => .error e
      | .ok _ => seqUnits rest

/-- Drain the waves in order; a rejected unit rejects the whole run. -/
def runWaves : List (List Asset) → Except String Unit
  | [] => .ok ()
  | w :: ws =>
      match seqUnits w with
      | .error e => .error e
      | .ok _ => runWaves ws

/-- Lines 116–138: `new PromiseQueue({maxConcurrent: 50})`, one
`promiseQueue.add(...)` per traversed asset, then `await
promiseQueue.run()`. -/
def runUnits (assets : List Asset) : Except String Unit :=
  runWaves (queueWaves 50 assets)

/-- Lines 62–101 of `generate.js` as one step: check the interpreter
invariant, frame the statements, and rebuild the file that is handed to
the printer.  An `invariant` failure aborts before any file is built. -/
def framedFile (bundleGraph : BundleGraph) (bundle : NamedBundle)
    (referencedAssets : List Asset) (parcelRequireName : String)
    (ast : File) : Except String File :=
  match getInterpreter bundle with
  | .error e => .error e
  | .ok interpreter =>
      .ok (buildFile bundle.env.outputFormat
        (frameStatements bundleGraph bundle referencedAssets parcelRequireName ast.program.body)
        interpreter)

/-- The embedded `generate` (lines 47–145 of
`packages/shared/scope-hoisting/src/generate.js`).  `babelGenerate` is the
external printer, applied to the framed file with the
`sourceMaps := !!bundle.env.sourceMap` and `minified := bundle.env.minify`
options.

Note on the source-map branch: the outer `map` is created from
`options.projectRoot` and receives `map.addIndexedMappings(rawMappings)`,
but every `map.setSourceContent(...)` call inside the queue units refers
to the inner `let map = await asset.getMap()` which shadows it, so the
outer map's source contents stay empty (see `assetUnit`); the units are
still awaited, so any rejected unit rejects `generate`. -/
def generate (bundleGraph : BundleGraph) (bundle : NamedBundle) (ast : File)
    (referencedAssets : List Asset) (parcelRequireName : String)
    (options : PluginOptions) (babelGenerate : Printer) :
    Except String GenResult :=
  match framedFile bundleGraph bundle referencedAssets parcelRequireName ast with
  | .error e => .error e
  | .ok framed =>
      let pr := babelGenerate framed bundle.env.sourceMap bundle.env.minify
      if bundle.env.sourceMap then
        match pr.rawMappings with
        | some rawMappings =>
            match runUnits bundle.assets with
            | .error e => .error e
            | .ok _ =>
                .ok { contents := pr.code
                      map := some { projectRoot := options.projectRoot
                                    mappings := rawMappings
                                    sourcesContent := [] } }
        | none => .ok { contents := pr.code, map := none }
      else .ok { contents := pr.code, map := none }

/-! ## Concrete fixtures

Small bundles, assets and printers used to evaluate the embedded code on
concrete inputs. -/

namespace Ex

/-- A bundle graph resolving an asset's public id to its stored `publicId`. -/
def pubId : BundleGraph := ⟨Asset.publicId⟩

def assetA : Asset := { publicId := "idA", metaInterpreter := .undefined, getMap := .ok none }

def assetC : Asset := { publicId := "idC", metaInterpreter := .undefined, getMap := .ok none }

/-- A decoded asset map with one source whose content is present and non-empty. -/
def contentVLQ : VLQMap := { sources := ["foo.js"], sourcesContent := some [some "const x = 1;"] }

/-- An asset whose own map decodes to `contentVLQ`. -/
def assetB : Asset :=
  { publicId := "idB", metaInterpreter := .undefined, getMap := .ok (some ⟨.ok contentVLQ⟩) }

/-- An asset whose map fetch rejects. -/
def badFetchAsset : Asset :=
  { publicId := "idBad", metaInterpreter := .undefined, getMap := .error "fetch failed" }

/-- An asset whose map is present but whose decode rejects. -/
def badDecodeAsset : Asset :=
  { publicId := "idDec", metaInterpreter := .undefined,
    getMap := .ok (some ⟨.error "decode failed"⟩) }

def globalEnv (sm : Bool) : Env := { outputFormat := .global, sourceMap := sm, minify := false }

def esmEnv : Env := { outputFormat := .esmodule, sourceMap := false, minify := false }

def entryGlobalBundle : NamedBundle :=
  { env := globalEnv false, targetIsBrowser := true, mainEntry := none,
    assets := [], isEntryBundle := true }

def entryEsmBundle : NamedBundle :=
  { env := esmEnv, targetIsBrowser := true, mainEntry := none,
    assets := [], isEntryBundle := true }

/-- A non-entry global bundle whose main entry `assetA` is also a member of
the referenced-asset set it is framed with. -/
def asyncGlobalBundle : NamedBundle :=
  { env := globalEnv false, targetIsBrowser := true, mainEntry := some assetA,
    assets := [], isEntryBundle := false }

/-- Source-map-enabled bundle holding the single asset `assetB`. -/
def mapBundle : NamedBundle :=
  { env := globalEnv true, targetIsBrowser := true, mainEntry := none,
    assets := [assetB], isEntryBundle := true }

/-- Non-browser entry bundle whose main entry declares interpreter `a`. -/
def nodeBundle (a : Asset) : NamedBundle :=
  { env := globalEnv false, targetIsBrowser := false, mainEntry := some a,
    assets := [], isEntryBundle := true }

/-- Main entry with `meta.interpreter` set to the empty string. -/
def emptyInterpAsset : Asset := { publicId := "idE", metaInterpreter := .str "", getMap := .ok none }

/-- Main entry with the non-string `meta.interpreter` value `42`. -/
def numInterpAsset : Asset := { publicId := "idN", metaInterpreter := .num 42, getMap := .ok none }

/-- Main entry declaring a usual interpreter string. -/
def shInterpAsset : Asset :=
  { publicId := "idS", metaInterpreter := .str "/usr/bin/env node", getMap := .ok none }

def ast1 : File := { program := { body := [Stmt.raw "stmt"], sourceType := .script, interpreter := none } }

def opts : PluginOptions := ⟨"/project"⟩

def raw1 : RawMapping := { generatedLine := 1, generatedColumn := 0, original := some (3, 1, "foo.js") }

/-- A printer yielding fixed text and one raw mapping. -/
def mapPrinter : Printer := fun _ _ _ => { code := "code", rawMappings := some [raw1] }

/-- A printer yielding no raw mappings. -/
def nullPrinter : Printer := fun _ _ _ => { code := "code", rawMappings := none }

/-- A printer echoing the received interpreter directive into the generated
text, to observe which directive (if any) reached the printer. -/
def echoPrinter : Printer := fun f _ _ =>
  { code := match f.program.interpreter with
      | some s => String.append "#!" s
      | none => ""
    rawMappings := none }

end Ex

/-! ## Concrete evaluations of the embedding -/

section ConcreteChecks

example :
    generate Ex.pubId Ex.mapBundle Ex.ast1 [] "parcelRequire" Ex.opts Ex.mapPrinter
      = .ok { contents := "code"
              map := some { projectRoot := "/project", mappings := [Ex.raw1], sourcesContent := [] } } := by
  rfl

example : assetUnit Ex.assetB = .ok [("foo.js", "const x = 1;")] := by rfl

example :
    frameStatements Ex.pubId Ex.asyncGlobalBundle [Ex.assetA, Ex.assetC] "parcelRequire" [Stmt.raw "s"]
      = [Stmt.registerWrapper ["idA", "idA", "idC"] "parcelRequire" [Stmt.raw "s"]] := by
  rfl

example :
    generate Ex.pubId (Ex.nodeBundle Ex.numInterpAsset) Ex.ast1 [] "parcelRequire" Ex.opts Ex.mapPrinter
      = .error "AssertionError: invariant(_interpreter == null || typeof _interpreter === \"string\")" := by
  rfl

example :
    generate Ex.pubId (Ex.nodeBundle Ex.emptyInterpAsset) Ex.ast1 [] "parcelRequire" Ex.opts Ex.echoPrinter
      = .ok { contents := "", map := none } := by
  rfl

example :
    generate Ex.pubId (Ex.nodeBundle Ex.shInterpAsset) Ex.ast1 [] "parcelRequire" Ex.opts Ex.echoPrinter
      = .ok { contents := "#!/usr/bin/env node", map := none } := by
  rfl

end ConcreteChecks

/-! ## Queue lemmas -/

theorem seqUnits_append (l₁ l₂ : List Asset) :
    seqUnits (l₁ ++ l₂)
      = match seqUnits l₁ with
        | .error e => .error e
        | .ok _ => seqUnits l₂ := by
  induction l₁ with
  | nil => simp [seqUnits]
  | cons a rest ih =>
      simp only [List.cons_append, seqUnits]
      cases assetUnit a with
      | error e => rfl
      | ok x => exact ih

theorem runWaves_eq_seqUnits_join (ws : List (List Asset)) :
    runWaves ws = seqUnits ws.flatten := by
  induction ws with
  | nil => rfl
  | cons w ws ih =>
      simp only [runWaves, List.flatten_cons, seqUnits_append]
      cases seqUnits w with
      | error e => rfl
      | ok x => exact ih

theorem queueWavesAux_join {α : Type} (cap : Nat) (hcap : 1 ≤ cap) :
    ∀ (fuel : Nat) (ts : List α), ts.length ≤ fuel →
      (queueWavesAux cap fuel ts).flatten = ts := by
  intro fuel
  induction fuel with
  | zero =>
      intro ts h
      cases ts with
      | nil => rfl
      | cons t ts => simp at h
  | succ fuel ih =>
      intro ts h
      cases ts with
      | nil => rfl
      | cons t ts =>
          simp only [queueWavesAux, List.flatten_cons]
          rw [ih ((t :: ts).drop cap) (by simp only [List.length_drop, List.length_cons] at h ⊢; omega)]
          exact List.take_append_drop cap (t :: ts)

theorem queueWaves_join {α : Type} (cap : Nat) (hcap : 1 ≤ cap) (ts : List α) :
    (queueWaves cap ts).flatten = ts :=
  queueWavesAux_join cap hcap ts.length ts le_rfl

theorem queueWavesAux_length_le {α : Type} (cap : Nat) :
    ∀ (fuel : Nat) (ts : List α), ∀ w ∈ queueWavesAux cap fuel ts, w.length ≤ cap := by
  intro fuel
  induction fuel with
  | zero =>
      intro ts w hw
      cases ts with
      | nil => simp [queueWavesAux] at hw
      | cons t ts => simp [queueWavesAux] at hw
  | succ fuel ih =>
      intro ts w hw
      cases ts with
      | nil => simp [queueWavesAux] at hw
      | cons t ts =>
          simp only [queueWavesAux, List.mem_cons] at hw
          rcases hw with h | h
          · subst h; exact List.length_take_le cap (t :: ts)
          · exact ih _ w h

theorem runUnits_eq_seqUnits (assets : List Asset) :
    runUnits assets = seqUnits assets := by
  rw [runUnits, runWaves_eq_seqUnits_join, queueWaves_join 50 (by omega)]

theorem seqUnits_ok_iff (l : List Asset) :
    seqUnits l = .ok () ↔ ∀ a ∈ l, ∃ x, assetUnit a = .ok x := by
  induction l with
  | nil => simp [seqUnits]
  | cons a rest ih =>
      simp only [seqUnits, List.mem_cons]
      cases h : assetUnit a with
      | error e =>
          constructor
          · intro hc; exact absurd hc (by simp)
          · intro hall
            rcases hall a (Or.inl rfl) with ⟨x, hx⟩
            rw [h] at hx
            exact absurd hx (by simp)
      | ok x =>
          rw [ih]
          constructor
          · intro hall b hb
            rcases hb with hb | hb
            · exact ⟨x, hb ▸ h⟩
            · exact hall b hb
          · intro hall b hb
            exact hall b (Or.inr hb)

theorem seqUnits_error_of_unit_error {a : Asset} {l : List Asset} {e : String}
    (ha : a ∈ l) (he : assetUnit a = .error e) :
    ∃ f, seqUnits l = .error f := by
  cases hs : seqUnits l with
  | error f => exact ⟨f, rfl⟩
  | ok u =>
      cases u
      rcases (seqUnits_ok_iff l).1 hs a ha with ⟨x, hx⟩
      rw [he] at hx
      exact absurd hx (by simp)

/-! ## Runtime semantics of the registration wrapper

`REGISTER_TEMPLATE` (lines 25–42 of `generate.js`) emits

```js
function $parcel$bundleWrapper() {
  if ($parcel$bundleWrapper._executed) return;
  STATEMENTS;
  $parcel$bundleWrapper._executed = true;
}
```

The wrapper function owns one persistent mutable flag (`_executed`, a
property of the function object itself, shared by every invocation) and a
body.  Its run-time behaviour is the state machine below; `bodyRuns`
counts how many times `STATEMENTS` has been executed to completion. -/

/-- The persistent state of one emitted `$parcel$bundleWrapper`. -/
structure WrapperState where
  executed : Bool
  bodyRuns : Nat
deriving DecidableEq, Repr

/-- One invocation of `$parcel$bundleWrapper`: return immediately if the
`_executed` flag is set, otherwise run `STATEMENTS` and set the flag. -/
def invokeWrapper (s : WrapperState) : WrapperState :=
  if s.executed then s
  else { executed := true, bodyRuns := s.bodyRuns + 1 }

/-- `n` successive invocations of the wrapper. -/
def invokeWrapperN : Nat → WrapperState → WrapperState
  | 0, s => s
  | n + 1, s => invokeWrapperN n (invokeWrapper s)

/-- The state of a freshly emitted wrapper: flag unset, body never run. -/
def initialWrapperState : WrapperState := ⟨false, 0⟩

theorem invokeWrapperN_executed (n : Nat) (k : Nat) :
    invokeWrapperN n ⟨true, k⟩ = ⟨true, k⟩ := by
  induction n with
  | zero => rfl
  | succ n ih => simpa [invokeWrapperN, invokeWrapper] using ih

/-! ## Claim theorems -/

/-- C9: the wrapper emitted for non-entry global-format bundles runs its
wrapped statements at most once: any number of invocations from the fresh
state yields at most one body run; after the first completed invocation
(which sets the `_executed` flag and leaves exactly one body run) every
further invocation returns without running the body. -/
theorem register_wrapper_runs_body_at_most_once :
    ∀ n k : Nat,
      (invokeWrapperN n initialWrapperState).bodyRuns ≤ 1
      ∧ invokeWrapperN (n + 1) initialWrapperState = ⟨true, 1⟩
      ∧ invokeWrapperN k ⟨true, 1⟩ = ⟨true, 1⟩ := by
  intro n k
  have hsucc : ∀ m : Nat, invokeWrapperN (m + 1) initialWrapperState = ⟨true, 1⟩ := by
    intro m
    have h1 : invokeWrapper initialWrapperState = ⟨true, 1⟩ := rfl
    simp [invokeWrapperN, h1, invokeWrapperN_executed]
  refine ⟨?_, hsucc n, invokeWrapperN_executed k 1⟩
  cases n with
  | zero => simp [invokeWrapperN, initialWrapperState]
  | succ m => rw [hsucc m]

/-- C7: for bundles whose output format is not the flat/global form, the
framing step leaves the statements untouched — whatever the entry role —
and the file handed to the printer carries exactly the input body. -/
theorem nonglobal_format_passthrough (bundleGraph : BundleGraph) (bundle : NamedBundle)
    (referencedAssets : List Asset) (parcelRequireName : String) (ast : File)
    (hfmt : bundle.env.outputFormat ≠ .global) :
    (∀ statements, frameStatements bundleGraph bundle referencedAssets parcelRequireName statements
        = statements)
    ∧ ∀ f, framedFile bundleGraph bundle referencedAssets parcelRequireName ast = .ok f →
        f.program.body = ast.program.body := by
  constructor
  · intro statements
    simp [frameStatements, hfmt]
  · intro f hf
    cases hi : getInterpreter bundle with
    | error e => rw [framedFile, hi] at hf; exact absurd hf (by simp)
    | ok i =>
        rw [framedFile, hi] at hf
        have : buildFile bundle.env.outputFormat
            (frameStatements bundleGraph bundle referencedAssets parcelRequireName ast.program.body)
            i = f := by
          injection hf
        rw [← this]
        simp [buildFile, frameStatements, hfmt]

/-- C7 witness: an esmodule-format bundle passes through unframed. -/
theorem nonglobal_format_passthrough_witness :
    frameStatements Ex.pubId Ex.entryEsmBundle [] "parcelRequire" [Stmt.raw "s"] = [Stmt.raw "s"]
    ∧ ∀ f, framedFile Ex.pubId Ex.entryEsmBundle [] "parcelRequire" Ex.ast1 = .ok f →
        f.program.body = Ex.ast1.program.body :=
  ⟨(nonglobal_format_passthrough Ex.pubId Ex.entryEsmBundle [] "parcelRequire" Ex.ast1
      (by simp [Ex.entryEsmBundle, Ex.esmEnv])).1 [Stmt.raw "s"],
   (nonglobal_format_passthrough Ex.pubId Ex.entryEsmBundle [] "parcelRequire" Ex.ast1
      (by simp [Ex.entryEsmBundle, Ex.esmEnv])).2⟩

/-- C1 counterexample: an entry bundle with the flat/global output format
does NOT keep its statements unwrapped — the framing step wraps them in the
plain self-invoking `WRAPPER_TEMPLATE`, so the statement list handed to the
printer differs from the input body. -/
theorem entry_global_is_wrapped :
    frameStatements Ex.pubId Ex.entryGlobalBundle [] "parcelRequire" [Stmt.raw "s"]
      = [Stmt.plainWrapper [Stmt.raw "s"]]
    ∧ frameStatements Ex.pubId Ex.entryGlobalBundle [] "parcelRequire" [Stmt.raw "s"]
      ≠ [Stmt.raw "s"] := by
  refine ⟨rfl, ?_⟩
  intro h
  have h2 : [Stmt.plainWrapper [Stmt.raw "s"]] = [Stmt.raw "s"] := h
  simp at h2

/-- C1 (amended): for entry bundles of non-global output formats the
statement list handed to the printer is exactly the input body; for entry
bundles of global format it is the input body wrapped — in order — in one
plain self-invoking wrapper without registration. -/
theorem entry_bundle_framing (bundleGraph : BundleGraph) (bundle : NamedBundle)
    (referencedAssets : List Asset) (parcelRequireName : String)
    (hentry : bundle.isEntryBundle = true) :
    (bundle.env.outputFormat ≠ .global →
      ∀ statements, frameStatements bundleGraph bundle referencedAssets parcelRequireName statements
        = statements)
    ∧ (bundle.env.outputFormat = .global →
      ∀ statements, frameStatements bundleGraph bundle referencedAssets parcelRequireName statements
        = [Stmt.plainWrapper statements]) := by
  constructor
  · intro hfmt statements
    simp [frameStatements, hfmt]
  · intro hfmt statements
    simp [frameStatements, hfmt, hentry]

/-- C1 witness: a non-global entry bundle passes through; a global entry
bundle gets the plain wrapper. -/
theorem entry_bundle_framing_witness :
    frameStatements Ex.pubId Ex.entryEsmBundle [] "parcelRequire" [Stmt.raw "s"] = [Stmt.raw "s"]
    ∧ frameStatements Ex.pubId Ex.entryGlobalBundle [] "parcelRequire" [Stmt.raw "s"]
        = [Stmt.plainWrapper [Stmt.raw "s"]] :=
  ⟨(entry_bundle_framing Ex.pubId Ex.entryEsmBundle [] "parcelRequire" rfl).1
      (by simp [Ex.entryEsmBundle, Ex.esmEnv]) [Stmt.raw "s"],
   (entry_bundle_framing Ex.pubId Ex.entryGlobalBundle [] "parcelRequire" rfl).2
      rfl [Stmt.raw "s"]⟩

/-- C3 counterexample: when the main entry is itself a member of
`referencedAssets`, its public id appears TWICE in the registration call's
id array — the list `[mainEntry, ...referencedAssets]` is not deduplicated,
refuting the claim that each id appears exactly once. -/
theorem register_ids_not_deduplicated :
    frameStatements Ex.pubId Ex.asyncGlobalBundle [Ex.assetA, Ex.assetC] "parcelRequire"
        [Stmt.raw "s"]
      = [Stmt.registerWrapper ["idA", "idA", "idC"] "parcelRequire" [Stmt.raw "s"]]
    ∧ List.count "idA" ["idA", "idA", "idC"] = 2 :=
  ⟨rfl, by decide⟩

/-- C3 (amended): for every non-entry global-format bundle the framing step
produces a single top-level self-invoking registration wrapper whose id
array is the public ids of the main entry (when present) followed by the
referenced assets in set order, WITHOUT deduplication — when the main entry
is a member of `referencedAssets` its id appears twice. -/
theorem nonentry_global_register_framing (bundleGraph : BundleGraph) (bundle : NamedBundle)
    (referencedAssets : List Asset) (parcelRequireName : String)
    (hasync : bundle.isEntryBundle = false)
    (hfmt : bundle.env.outputFormat = .global) :
    ∀ statements, frameStatements bundleGraph bundle referencedAssets parcelRequireName statements
      = [Stmt.registerWrapper
          ((bundle.mainEntry.toList ++ referencedAssets).map bundleGraph.getAssetPublicId)
          parcelRequireName statements] := by
  intro statements
  simp [frameStatements, hfmt, hasync]

/-- C3 witness: the non-entry global bundle with main entry `assetA` and
referenced assets `[assetA, assetC]` is framed as a single registration
wrapper over the ids `["idA", "idA", "idC"]`. -/
theorem nonentry_global_register_framing_witness :
    frameStatements Ex.pubId Ex.asyncGlobalBundle [Ex.assetA, Ex.assetC] "parcelRequire"
        [Stmt.raw "s"]
      = [Stmt.registerWrapper
          ((Ex.asyncGlobalBundle.mainEntry.toList ++ [Ex.assetA, Ex.assetC]).map
            Ex.pubId.getAssetPublicId)
          "parcelRequire" [Stmt.raw "s"]] :=
  nonentry_global_register_framing Ex.pubId Ex.asyncGlobalBundle [Ex.assetA, Ex.assetC]
    "parcelRequire" rfl rfl [Stmt.raw "s"]

/-- C4 counterexample: with `meta.interpreter` set to the STRING `""` on a
non-browser entry bundle, generation succeeds but no interpreter directive
is attached — `interpreter ? t.interpreterDirective(interpreter) : null`
treats the empty string as falsy — refuting "when the value is a string,
the directive is attached".  The echo printer shows the file it received
carried no directive. -/
theorem empty_interpreter_string_not_attached :
    (Ex.nodeBundle Ex.emptyInterpAsset).mainEntry = some Ex.emptyInterpAsset
    ∧ Ex.emptyInterpAsset.metaInterpreter = JSValue.str ""
    ∧ (Ex.nodeBundle Ex.emptyInterpAsset).targetIsBrowser = false
    ∧ getInterpreter (Ex.nodeBundle Ex.emptyInterpAsset) = .ok (some "")
    ∧ framedFile Ex.pubId (Ex.nodeBundle Ex.emptyInterpAsset) [] "parcelRequire" Ex.ast1
        = .ok (buildFile .global [Stmt.plainWrapper [Stmt.raw "stmt"]] (some ""))
    ∧ (buildFile .global [Stmt.plainWrapper [Stmt.raw "stmt"]] (some "")).program.interpreter
        = none
    ∧ generate Ex.pubId (Ex.nodeBundle Ex.emptyInterpAsset) Ex.ast1 [] "parcelRequire" Ex.opts
        Ex.echoPrinter
        = .ok { contents := "", map := none } :=
  ⟨rfl, rfl, rfl, rfl, rfl, rfl, rfl⟩

/-- C4 (amended): on a non-browser bundle with a main entry, a
`meta.interpreter` value that is neither null/undefined nor a string makes
`generate` fail (the `invariant` throws before any file is built or text
printed); a non-empty string value is attached as the file's interpreter
directive (the empty string, though a string, is dropped by JS
truthiness); and for browser targets or bundles without a main entry no
directive is ever attached. -/
theorem interpreter_directive_handling (bundleGraph : BundleGraph) (bundle : NamedBundle)
    (ast : File) (referencedAssets : List Asset) (parcelRequireName : String)
    (options : PluginOptions) (babelGenerate : Printer) :
    (∀ a, bundle.mainEntry = some a → bundle.targetIsBrowser = false →
        interpreterInvariant a.metaInterpreter = false →
        ∃ e, generate bundleGraph bundle ast referencedAssets parcelRequireName options
            babelGenerate = .error e)
    ∧ (∀ a s, bundle.mainEntry = some a → bundle.targetIsBrowser = false →
        a.metaInterpreter = .str s → s ≠ "" →
        ∃ f, framedFile bundleGraph bundle referencedAssets parcelRequireName ast = .ok f
          ∧ f.program.interpreter = some s)
    ∧ ((bundle.targetIsBrowser = true ∨ bundle.mainEntry = none) →
        ∃ f, framedFile bundleGraph bundle referencedAssets parcelRequireName ast = .ok f
          ∧ f.program.interpreter = none) := by
  refine ⟨?_, ?_, ?_⟩
  · intro a hme hbr hinv
    have hgi : getInterpreter bundle
        = .error "AssertionError: invariant(_interpreter == null || typeof _interpreter === \"string\")" := by
      simp [getInterpreter, hme, hbr, hinv]
    exact ⟨"AssertionError: invariant(_interpreter == null || typeof _interpreter === \"string\")",
      by simp [generate, framedFile, hgi]⟩
  · intro a s hme hbr hstr hne
    have hgi : getInterpreter bundle = .ok (some s) := by
      simp [getInterpreter, hme, hbr, hstr, interpreterInvariant]
    refine ⟨buildFile bundle.env.outputFormat
        (frameStatements bundleGraph bundle referencedAssets parcelRequireName ast.program.body)
        (some s), by simp [framedFile, hgi], ?_⟩
    simp [buildFile, truthyStr, hne]
  · intro h
    have hgi : getInterpreter bundle = .ok none := by
      rcases h with hbr | hme
      · cases hme2 : bundle.mainEntry with
        | none => simp [getInterpreter, hme2]
        | some a => simp [getInterpreter, hme2, hbr]
      · simp [getInterpreter, hme]
    exact ⟨buildFile bundle.env.outputFormat
        (frameStatements bundleGraph bundle referencedAssets parcelRequireName ast.program.body)
        none, by simp [framedFile, hgi], rfl⟩

/-- C4 witness: a `42` directive aborts generation; `"/usr/bin/env node"`
is attached; a bundle without a main entry gets no directive. -/
theorem interpreter_directive_handling_witness :
    (∃ e, generate Ex.pubId (Ex.nodeBundle Ex.numInterpAsset) Ex.ast1 [] "parcelRequire" Ex.opts
        Ex.echoPrinter = .error e)
    ∧ (∃ f, framedFile Ex.pubId (Ex.nodeBundle Ex.shInterpAsset) [] "parcelRequire" Ex.ast1 = .ok f
        ∧ f.program.interpreter = some "/usr/bin/env node")
    ∧ (∃ f, framedFile Ex.pubId Ex.entryGlobalBundle [] "parcelRequire" Ex.ast1 = .ok f
        ∧ f.program.interpreter = none) :=
  ⟨(interpreter_directive_handling Ex.pubId (Ex.nodeBundle Ex.numInterpAsset) Ex.ast1 []
      "parcelRequire" Ex.opts Ex.echoPrinter).1 Ex.numInterpAsset rfl rfl rfl,
   (interpreter_directive_handling Ex.pubId (Ex.nodeBundle Ex.shInterpAsset) Ex.ast1 []
      "parcelRequire" Ex.opts Ex.echoPrinter).2.1 Ex.shInterpAsset "/usr/bin/env node" rfl rfl rfl
      (by decide),
   (interpreter_directive_handling Ex.pubId Ex.entryGlobalBundle Ex.ast1 []
      "parcelRequire" Ex.opts Ex.echoPrinter).2.2 (Or.inr rfl)⟩

/-- C2 (evaluation at the failing input): on a source-map-enabled bundle
holding one asset whose own map decodes to the present, non-empty content
`"const x = 1;"` for source `"foo.js"`, the per-asset unit does perform the
truthy `setSourceContent` call — but on the shadowed inner `map` (the
asset's own map), so the map `generate` returns carries NO source content
at all. -/
theorem source_content_never_attached :
    assetUnit Ex.assetB = .ok [("foo.js", "const x = 1;")]
    ∧ generate Ex.pubId Ex.mapBundle Ex.ast1 [] "parcelRequire" Ex.opts Ex.mapPrinter
        = .ok { contents := "code"
                map := some { projectRoot := "/project", mappings := [Ex.raw1],
                              sourcesContent := [] } } :=
  ⟨rfl, rfl⟩

/-- C5: when the source-map flag of the bundle is false the returned map is
always absent, and no asset traversal (hence no per-asset map fetch)
occurs: the result does not depend on the bundle's asset list at all. -/
theorem sourcemap_disabled_short_circuit (bundleGraph : BundleGraph) (bundle : NamedBundle)
    (ast : File) (referencedAssets : List Asset) (parcelRequireName : String)
    (options : PluginOptions) (babelGenerate : Printer)
    (hsm : bundle.env.sourceMap = false) :
    (∀ as₁ as₂ : List Asset,
      generate bundleGraph { bundle with assets := as₁ } ast referencedAssets parcelRequireName
          options babelGenerate
        = generate bundleGraph { bundle with assets := as₂ } ast referencedAssets parcelRequireName
          options babelGenerate)
    ∧ ∀ r, generate bundleGraph bundle ast referencedAssets parcelRequireName options babelGenerate
        = .ok r → r.map = none := by
  have hgen : ∀ b : NamedBundle, b.env.sourceMap = false →
      generate bundleGraph b ast referencedAssets parcelRequireName options babelGenerate
        = match framedFile bundleGraph b referencedAssets parcelRequireName ast with
          | .error e => .error e
          | .ok framed =>
              .ok { contents := (babelGenerate framed b.env.sourceMap b.env.minify).code
                    map := none } := by
    intro b hb
    cases hf : framedFile bundleGraph b referencedAssets parcelRequireName ast with
    | error e => simp [generate, hf]
    | ok framed => simp [generate, hf, hb]
  refine ⟨fun as₁ as₂ => ?_, fun r hr => ?_⟩
  · rw [hgen { bundle with assets := as₁ } hsm, hgen { bundle with assets := as₂ } hsm]
    rfl
  · rw [hgen bundle hsm] at hr
    cases hf : framedFile bundleGraph bundle referencedAssets parcelRequireName ast with
    | error e => rw [hf] at hr; exact absurd hr (by simp)
    | ok framed =>
        rw [hf] at hr
        injection hr with h
        subst h
        rfl

/-- C5 witness: with source maps off, a bundle with a rejecting-fetch asset
generates identically to one with no assets, and the produced result holds
no map. -/
theorem sourcemap_disabled_short_circuit_witness :
    generate Ex.pubId { Ex.entryGlobalBundle with assets := [Ex.badFetchAsset] } Ex.ast1 []
        "parcelRequire" Ex.opts Ex.mapPrinter
      = generate Ex.pubId { Ex.entryGlobalBundle with assets := [] } Ex.ast1 []
        "parcelRequire" Ex.opts Ex.mapPrinter
    ∧ GenResult.map { contents := "code", map := none } = none :=
  ⟨(sourcemap_disabled_short_circuit Ex.pubId Ex.entryGlobalBundle Ex.ast1 [] "parcelRequire"
      Ex.opts Ex.mapPrinter rfl).1 [Ex.badFetchAsset] [],
   (sourcemap_disabled_short_circuit Ex.pubId Ex.entryGlobalBundle Ex.ast1 [] "parcelRequire"
      Ex.opts Ex.mapPrinter rfl).2 { contents := "code", map := none } rfl⟩

/-- C10: when source maps are enabled but the external printer yields no
raw mappings, `generate` still returns an absent map and performs no asset
traversal — the result does not depend on the bundle's asset list. -/
theorem no_raw_mappings_no_map (bundleGraph : BundleGraph) (bundle : NamedBundle)
    (ast : File) (referencedAssets : List Asset) (parcelRequireName : String)
    (options : PluginOptions) (babelGenerate : Printer)
    (hsm : bundle.env.sourceMap = true)
    (hraw : ∀ f mn, (babelGenerate f true mn).rawMappings = none) :
    (∀ as₁ as₂ : List Asset,
      generate bundleGraph { bundle with assets := as₁ } ast referencedAssets parcelRequireName
          options babelGenerate
        = generate bundleGraph { bundle with assets := as₂ } ast referencedAssets parcelRequireName
          options babelGenerate)
    ∧ ∀ r, generate bundleGraph bundle ast referencedAssets parcelRequireName options babelGenerate
        = .ok r → r.map = none := by
  have hgen : ∀ b : NamedBundle, b.env.sourceMap = true →
      generate bundleGraph b ast referencedAssets parcelRequireName options babelGenerate
        = match framedFile bundleGraph b referencedAssets parcelRequireName ast with
          | .error e => .error e
          | .ok framed =>
              .ok { contents := (babelGenerate framed true b.env.minify).code
                    map := none } := by
    intro b hb
    cases hf : framedFile bundleGraph b referencedAssets parcelRequireName ast with
    | error e => simp [generate, hf]
    | ok framed => simp [generate, hf, hb, hraw framed b.env.minify]
  refine ⟨fun as₁ as₂ => ?_, fun r hr => ?_⟩
  · rw [hgen { bundle with assets := as₁ } hsm, hgen { bundle with assets := as₂ } hsm]
    rfl
  · rw [hgen bundle hsm] at hr
    cases hf : framedFile bundleGraph bundle referencedAssets parcelRequireName ast with
    | error e => rw [hf] at hr; exact absurd hr (by simp)
    | ok framed =>
        rw [hf] at hr
        injection hr with h
        subst h
        rfl

/-- C10 witness: with maps enabled and a printer yielding no raw mappings,
a bundle with an asset generates identically to one with no assets, and the
produced result holds no map. -/
theorem no_raw_mappings_no_map_witness :
    generate Ex.pubId { Ex.mapBundle with assets := [Ex.badFetchAsset] } Ex.ast1 []
        "parcelRequire" Ex.opts Ex.nullPrinter
      = generate Ex.pubId { Ex.mapBundle with assets := [] } Ex.ast1 []
        "parcelRequire" Ex.opts Ex.nullPrinter
    ∧ GenResult.map { contents := "code", map := none } = none :=
  ⟨(no_raw_mappings_no_map Ex.pubId Ex.mapBundle Ex.ast1 [] "parcelRequire" Ex.opts
      Ex.nullPrinter rfl (fun _ _ => rfl)).1 [Ex.badFetchAsset] [],
   (no_raw_mappings_no_map Ex.pubId Ex.mapBundle Ex.ast1 [] "parcelRequire" Ex.opts
      Ex.nullPrinter rfl (fun _ _ => rfl)).2 { contents := "code", map := none } rfl⟩

/-- C6: during source-map assembly, an asset whose map fetch resolves to no
map is silently skipped (removing it from the traversal changes nothing),
while a rejecting unit — a rejected map fetch or a failing decode of a
present map — fails the whole `generate` call, so no (in particular no
partially-populated) map is ever returned alongside a failure. -/
theorem missing_map_skipped_failures_propagate (bundleGraph : BundleGraph)
    (bundle : NamedBundle) (ast : File) (referencedAssets : List Asset)
    (parcelRequireName : String) (options : PluginOptions) (babelGenerate : Printer) :
    (∀ (a : Asset) (pre post : List Asset), a.getMap = .ok none →
      generate bundleGraph { bundle with assets := pre ++ a :: post } ast referencedAssets
          parcelRequireName options babelGenerate
        = generate bundleGraph { bundle with assets := pre ++ post } ast referencedAssets
          parcelRequireName options babelGenerate)
    ∧ (∀ (a : Asset) (e : String), a ∈ bundle.assets → assetUnit a = .error e →
        bundle.env.sourceMap = true →
        (∀ f mn, (babelGenerate f true mn).rawMappings ≠ none) →
        ∃ e2, generate bundleGraph bundle ast referencedAssets parcelRequireName options
            babelGenerate = .error e2) := by
  constructor
  · intro a pre post hskip
    have hunit : assetUnit a = .ok [] := by simp [assetUnit, hskip]
    have hrun : runUnits (pre ++ a :: post) = runUnits (pre ++ post) := by
      rw [runUnits_eq_seqUnits, runUnits_eq_seqUnits, seqUnits_append, seqUnits_append]
      have hcons : seqUnits (a :: post) = seqUnits post := by
        simp [seqUnits, hunit]
      rw [hcons]
    have hgen : ∀ as : List Asset,
        generate bundleGraph { bundle with assets := as } ast referencedAssets parcelRequireName
            options babelGenerate
          = match framedFile bundleGraph bundle referencedAssets parcelRequireName ast with
            | .error e => .error e
            | .ok framed =>
                let pr := babelGenerate framed bundle.env.sourceMap bundle.env.minify
                if bundle.env.sourceMap then
                  match pr.rawMappings with
                  | some rawMappings =>
                      match runUnits as with
                      | .error e => .error e
                      | .ok _ =>
                          .ok { contents := pr.code
                                map := some { projectRoot := options.projectRoot
                                              mappings := rawMappings
                                              sourcesContent := [] } }
                  | none => .ok { contents := pr.code, map := none }
                else .ok { contents := pr.code, map := none } :=
      fun _ => rfl
    rw [hgen (pre ++ a :: post), hgen (pre ++ post), hrun]
  · intro a e ha hunit hsm hraw
    rcases seqUnits_error_of_unit_error ha hunit with ⟨f, hseq⟩
    have hrun : runUnits bundle.assets = .error f := by
      rw [runUnits_eq_seqUnits]; exact hseq
    cases hf : framedFile bundleGraph bundle referencedAssets parcelRequireName ast with
    | error e2 => exact ⟨e2, by simp [generate, hf]⟩
    | ok framed =>
        cases hrm : (babelGenerate framed true bundle.env.minify).rawMappings with
        | none => exact absurd hrm (hraw framed bundle.env.minify)
        | some rawMappings =>
            refine ⟨f, ?_⟩
            simp [generate, hf, hsm, hrm, hrun]

/-- C6 witness: dropping the no-map asset `assetA` from the traversal list
leaves `generate` unchanged, and a bundle whose only asset has a rejecting
map fetch makes `generate` fail. -/
theorem missing_map_skipped_failures_propagate_witness :
    (generate Ex.pubId { Ex.mapBundle with assets := [Ex.assetA, Ex.assetB] } Ex.ast1 []
        "parcelRequire" Ex.opts Ex.mapPrinter
      = generate Ex.pubId { Ex.mapBundle with assets := [Ex.assetB] } Ex.ast1 []
        "parcelRequire" Ex.opts Ex.mapPrinter)
    ∧ ∃ e2, generate Ex.pubId { Ex.mapBundle with assets := [Ex.badFetchAsset] } Ex.ast1 []
        "parcelRequire" Ex.opts Ex.mapPrinter = .error e2 :=
  ⟨(missing_map_skipped_failures_propagate Ex.pubId Ex.mapBundle Ex.ast1 [] "parcelRequire"
      Ex.opts Ex.mapPrinter).1 Ex.assetA [] [Ex.assetB] rfl,
   (missing_map_skipped_failures_propagate Ex.pubId
      { Ex.mapBundle with assets := [Ex.badFetchAsset] } Ex.ast1 [] "parcelRequire"
      Ex.opts Ex.mapPrinter).2 Ex.badFetchAsset "fetch failed" (by simp) rfl rfl
      (fun f mn => by simp [Ex.mapPrinter])⟩

/-- C8: the per-asset fetch-and-attach units run through the bounded
queue (spec model of `PromiseQueue` with `maxConcurrent := 50`): every
wave of simultaneously in-flight units holds at most 50 of them, the waves
flatten back to exactly the traversed asset list (every unit is scheduled,
none twice), and the awaited run drains them all sequentially wave by
wave — it succeeds exactly when every scheduled unit does (quiescence
barrier). -/
theorem bounded_queue_quiescence :
    ∀ assets : List Asset,
      ((queueWaves 50 assets).all fun w => w.length ≤ 50) = true
      ∧ (queueWaves 50 assets).flatten = assets
      ∧ runUnits assets = seqUnits assets
      ∧ (runUnits assets = .ok () ↔ ∀ a ∈ assets, ∃ x, assetUnit a = .ok x) := by
  intro assets
  refine ⟨?_, queueWaves_join 50 (by omega) assets, runUnits_eq_seqUnits assets, ?_⟩
  · rw [List.all_eq_true]
    intro w hw
    simpa using queueWavesAux_length_le 50 assets.length assets w hw
  · rw [runUnits_eq_seqUnits]
    exact seqUnits_ok_iff assets

end ScopeHoisting
